import Mathlib

/-!
Verification development for the MAX31875 temperature-sensor driver
(`MAX31875.py`).

The driver keeps two Python lists of two bytes each: `self.configBuf`
(the pending configuration, mutated by the field setters) and
`self.config` (the active configuration, i.e. the last value known to
match the device).  We embed the object state as a structure holding the
two bytes of each list plus an `aliased` flag: in Python,
`writeConfig` executes `self.config = self.configBuf`, which makes both
attribute names refer to the SAME list object (reference assignment, not
a copy), so from then on an in-place element mutation through either
name updates both.  `readConfig` rebinds `self.config` to a fresh list,
which breaks the aliasing.  The flag records exactly this; the invariant
`aliased = true → configBuf = config` holds in every reachable state.

The bus collaborator (smbus2) is external: `write` returns the byte
block handed to `bus.write_i2c_block_data`, and `read` takes the byte
block returned by `bus.read_i2c_block_data` as an explicit argument
(`recv`).  Python floats are embedded as rationals; every numeric value
reached by the claims (multiples of 1/16 within register range, and the
constants 16 and 0.0625) is exactly representable in binary floating
point, so rational arithmetic agrees with the source bit for bit there.
-/

namespace MAX31875Driver

/-- The object state of a `MAX31875` driver instance.
`bufB0`/`bufB1` are `self.configBuf[0]`/`[1]` (pending configuration),
`cfgB0`/`cfgB1` are `self.config[0]`/`[1]` (active configuration), and
`aliased` records whether the two Python lists are the same object
(true after `self.config = self.configBuf` in `writeConfig`). -/
structure MAX31875 where
  addr : Nat
  bufB0 : Nat
  bufB1 : Nat
  cfgB0 : Nat
  cfgB1 : Nat
  aliased : Bool
deriving DecidableEq

/-- Constructor `__init__(part_number)`: `self.addr = 0x48 + part_number`,
`self.configBuf = [0x00,0x40]`, `self.config = [0x00,0x40]` — two
distinct list literals, hence not aliased. -/
def init (part_number : Nat) : MAX31875 :=
  { addr := 0x48 + part_number
  , bufB0 := 0x00, bufB1 := 0x40
  , cfgB0 := 0x00, cfgB1 := 0x40
  , aliased := false }

/-- In-place store `self.configBuf[0] = v`; hits `self.config[0]` too
when the two names alias one list. -/
def storeBuf0 (s : MAX31875) (v : Nat) : MAX31875 :=
  if s.aliased then { s with bufB0 := v, cfgB0 := v } else { s with bufB0 := v }

/-- In-place store `self.configBuf[1] = v`; hits `self.config[1]` too
when the two names alias one list. -/
def storeBuf1 (s : MAX31875) (v : Nat) : MAX31875 :=
  if s.aliased then { s with bufB1 := v, cfgB1 := v } else { s with bufB1 := v }

/-- In-place store `self.config[1] = v`; hits `self.configBuf[1]` too
when the two names alias one list. -/
def storeCfg1 (s : MAX31875) (v : Nat) : MAX31875 :=
  if s.aliased then { s with bufB1 := v, cfgB1 := v } else { s with cfgB1 := v }

/-- Getter `format`: `(self.config[1] >> 7)`. -/
def format (s : MAX31875) : Nat := s.cfgB1 >>> 7

/-- Getter `PEC`: `(self.config[1] >> 3) & 1`. -/
def PEC (s : MAX31875) : Nat := (s.cfgB1 >>> 3) &&& 1

/-- Getter `resolution`: `(self.config[1] >> 5) & 3`. -/
def resolution (s : MAX31875) : Nat := (s.cfgB1 >>> 5) &&& 3

/-- Getter `conversionRate`: `(self.config[1] >> 1) & 3`. -/
def conversionRate (s : MAX31875) : Nat := (s.cfgB1 >>> 1) &&& 3

/-- Getter `timeOut`: `(self.config[1] >> 4) & 1`. -/
def timeOut (s : MAX31875) : Nat := (s.cfgB1 >>> 4) &&& 1

/-- Getter `faultQueue`: `(self.config[0] >> 3) & 3`. -/
def faultQueue (s : MAX31875) : Nat := (s.cfgB0 >>> 3) &&& 3

/-- Getter `shutDown`: `self.config[0] & 1`. -/
def shutDown (s : MAX31875) : Nat := s.cfgB0 &&& 1

/-- Getter `compInt`: `(self.config[0] >> 1) & 1`. -/
def compInt (s : MAX31875) : Nat := (s.cfgB0 >>> 1) &&& 1

/-- The pending (write-side) PEC bit, `(self.configBuf[1] >> 3) & 1`;
read off the buffer for stating properties (the source reads
`configBuf` only inside setters and `writeConfig`). -/
def pendingPEC (s : MAX31875) : Nat := (s.bufB1 >>> 3) &&& 1

/-- Setter `format`: reject values outside {0,1}, else
`self.configBuf[1] = (self.configBuf[1] & 0x7F) | (fmt << 7)`. -/
def setFormat (s : MAX31875) (fmt : Nat) : Except String MAX31875 :=
  if fmt = 0 ∨ fmt = 1 then
    .ok (storeBuf1 s ((s.bufB1 &&& 0x7F) ||| (fmt <<< 7)))
  else .error "Invalid format"

/-- Setter `PEC`: reject values outside {0,1}, else
`self.configBuf[1] = (self.configBuf[1] & 0xF7) | (PEC << 3)`, and when
the value is truthy additionally
`self.config[1] = (self.config[1] & 0xF7) | (PEC << 3)` (the source's
special case: enabling PEC also flips the active copy at once). -/
def setPEC (s : MAX31875) (v : Nat) : Except String MAX31875 :=
  if v = 0 ∨ v = 1 then
    let s1 := storeBuf1 s ((s.bufB1 &&& 0xF7) ||| (v <<< 3))
    if v ≠ 0 then
      .ok (storeCfg1 s1 ((s1.cfgB1 &&& 0xF7) ||| (v <<< 3)))
    else .ok s1
  else .error "Invalid PEC"

/-- Setter `resolution`: reject values outside {0,1,2,3}, else
`self.configBuf[1] = (self.configBuf[1] & 0x9F) | (res << 5)`. -/
def setResolution (s : MAX31875) (res : Nat) : Except String MAX31875 :=
  if res = 0 ∨ res = 1 ∨ res = 2 ∨ res = 3 then
    .ok (storeBuf1 s ((s.bufB1 &&& 0x9F) ||| (res <<< 5)))
  else .error "Invalid resolution"

/-- Setter `conversionRate`: reject values outside {0,1,2,3}, else
`self.configBuf[1] = (self.configBuf[1] & 0xF9) | (rate << 1)`. -/
def setConversionRate (s : MAX31875) (rate : Nat) : Except String MAX31875 :=
  if rate = 0 ∨ rate = 1 ∨ rate = 2 ∨ rate = 3 then
    .ok (storeBuf1 s ((s.bufB1 &&& 0xF9) ||| (rate <<< 1)))
  else .error "Invalid conversion rate"

/-- Setter `timeOut`: reject values outside {0,1}, else
`self.configBuf[1] = (self.configBuf[1] & 0xEF) | (t << 4)`. -/
def setTimeOut (s : MAX31875) (t : Nat) : Except String MAX31875 :=
  if t = 0 ∨ t = 1 then
    .ok (storeBuf1 s ((s.bufB1 &&& 0xEF) ||| (t <<< 4)))
  else .error "Invalid time out"

/-- Setter `faultQueue`: reject values outside {0,1,2,3}, else
`self.configBuf[0] = (self.configBuf[0] & 0xE7) | (fq << 3)`. -/
def setFaultQueue (s : MAX31875) (fq : Nat) : Except String MAX31875 :=
  if fq = 0 ∨ fq = 1 ∨ fq = 2 ∨ fq = 3 then
    .ok (storeBuf0 s ((s.bufB0 &&& 0xE7) ||| (fq <<< 3)))
  else .error "Invalid fault queue"

/-- Setter `shutDown`: reject values outside {0,1}, else
`self.configBuf[0] = (self.configBuf[0] & 0xFE) | (sd)`. -/
def setShutDown (s : MAX31875) (sd : Nat) : Except String MAX31875 :=
  if sd = 0 ∨ sd = 1 then
    .ok (storeBuf0 s ((s.bufB0 &&& 0xFE) ||| sd))
  else .error "Invalid shut down mode setting"

/-- Setter `compInt`: reject values outside {0,1}, else
`self.configBuf[0] = (self.configBuf[0] & 0xFD) | (c << 1)` (the
source reuses the shut-down error message here). -/
def setCompInt (s : MAX31875) (c : Nat) : Except String MAX31875 :=
  if c = 0 ∨ c = 1 then
    .ok (storeBuf0 s ((s.bufB0 &&& 0xFD) ||| (c <<< 1)))
  else .error "Invalid shut down mode setting"

/-- The 256-entry CRC-8 lookup table, decoded byte for byte from the
`bytes` literal in `calcCRC` (it is the standard polynomial-0x07
table). -/
def crcTable : List Nat :=
  [ 0x00, 0x07, 0x0e, 0x09, 0x1c, 0x1b, 0x12, 0x15, 0x38, 0x3f, 0x36, 0x31, 0x24, 0x23, 0x2a, 0x2d
  , 0x70, 0x77, 0x7e, 0x79, 0x6c, 0x6b, 0x62, 0x65, 0x48, 0x4f, 0x46, 0x41, 0x54, 0x53, 0x5a, 0x5d
  , 0xe0, 0xe7, 0xee, 0xe9, 0xfc, 0xfb, 0xf2, 0xf5, 0xd8, 0xdf, 0xd6, 0xd1, 0xc4, 0xc3, 0xca, 0xcd
  , 0x90, 0x97, 0x9e, 0x99, 0x8c, 0x8b, 0x82, 0x85, 0xa8, 0xaf, 0xa6, 0xa1, 0xb4, 0xb3, 0xba, 0xbd
  , 0xc7, 0xc0, 0xc9, 0xce, 0xdb, 0xdc, 0xd5, 0xd2, 0xff, 0xf8, 0xf1, 0xf6, 0xe3, 0xe4, 0xed, 0xea
  , 0xb7, 0xb0, 0xb9, 0xbe, 0xab, 0xac, 0xa5, 0xa2, 0x8f, 0x88, 0x81, 0x86, 0x93, 0x94, 0x9d, 0x9a
  , 0x27, 0x20, 0x29, 0x2e, 0x3b, 0x3c, 0x35, 0x32, 0x1f, 0x18, 0x11, 0x16, 0x03, 0x04, 0x0d, 0x0a
  , 0x57, 0x50, 0x59, 0x5e, 0x4b, 0x4c, 0x45, 0x42, 0x6f, 0x68, 0x61, 0x66, 0x73, 0x74, 0x7d, 0x7a
  , 0x89, 0x8e, 0x87, 0x80, 0x95, 0x92, 0x9b, 0x9c, 0xb1, 0xb6, 0xbf, 0xb8, 0xad, 0xaa, 0xa3, 0xa4
  , 0xf9, 0xfe, 0xf7, 0xf0, 0xe5, 0xe2, 0xeb, 0xec, 0xc1, 0xc6, 0xcf, 0xc8, 0xdd, 0xda, 0xd3, 0xd4
  , 0x69, 0x6e, 0x67, 0x60, 0x75, 0x72, 0x7b, 0x7c, 0x51, 0x56, 0x5f, 0x58, 0x4d, 0x4a, 0x43, 0x44
  , 0x19, 0x1e, 0x17, 0x10, 0x05, 0x02, 0x0b, 0x0c, 0x21, 0x26, 0x2f, 0x28, 0x3d, 0x3a, 0x33, 0x34
  , 0x4e, 0x49, 0x40, 0x47, 0x52, 0x55, 0x5c, 0x5b, 0x76, 0x71, 0x78, 0x7f, 0x6a, 0x6d, 0x64, 0x63
  , 0x3e, 0x39, 0x30, 0x37, 0x22, 0x25, 0x2c, 0x2b, 0x06, 0x01, 0x08, 0x0f, 0x1a, 0x1d, 0x14, 0x13
  , 0xae, 0xa9, 0xa0, 0xa7, 0xb2, 0xb5, 0xbc, 0xbb, 0x96, 0x91, 0x98, 0x9f, 0x8a, 0x8d, 0x84, 0x83
  , 0xde, 0xd9, 0xd0, 0xd7, 0xc2, 0xc5, 0xcc, 0xcb, 0xe6, 0xe1, 0xe8, 0xef, 0xfa, 0xfd, 0xf4, 0xf3 ]

/-- Source `calcCRC(data)`: `_sum = 0; for byte in data: _sum = table[_sum ^ byte]`.
Table indices stay below 256 for byte-valued input since every table
entry is below 256; `getD` only defaults out of range. -/
def calcCRC (data : List Nat) : Nat :=
  data.foldl (fun acc b => crcTable.getD (acc ^^^ b) 0) 0

/-- Source `write(register, data)`: returns the byte block handed to
`bus.write_i2c_block_data(addr, register, ·)`: with the active PEC bit
truthy, `data + [calcCRC([addr<<1, register] + data)]`, else `data`. -/
def write (s : MAX31875) (register : Nat) (data : List Nat) : List Nat :=
  if PEC s ≠ 0 then
    data ++ [calcCRC ((s.addr <<< 1) :: register :: data)]
  else data

/-- The byte count `write` requests from the bus for a read of `length`
bytes: `length+1` under active PEC (`read_i2c_block_data(addr, register,
length+1)`), else `length`. -/
def readReqLen (s : MAX31875) (length : Nat) : Nat :=
  if PEC s ≠ 0 then length + 1 else length

/-- Source `read(register, length)`, with `recv` the block the bus returned
(of size `readReqLen s length` per the bus contract): under active PEC,
compare `calcCRC([addr<<1, register, (addr<<1)+1] + data[:-1])` with
`data[-1]` and return `data[:-1]` on a match, `None` on a mismatch;
without PEC return the block as is. -/
def read (s : MAX31875) (register length : Nat) (recv : List Nat) :
    Option (List Nat) :=
  if PEC s ≠ 0 then
    if calcCRC ([s.addr <<< 1, register, (s.addr <<< 1) + 1] ++ recv.dropLast)
        = recv.getLastD 0 then
      some recv.dropLast
    else none
  else some recv

/-- Source `readConfig()`, with `recv` the block the bus returned: on a truthy
`read(1,2)` result rebind `self.config` to the fresh 2-byte list (which
breaks any aliasing with `configBuf`), else raise
`IOError("Failed to read configuration")` and leave the state as it
was.  The bus contract returns exactly the requested block size, so a
successful read of length 2 always matches `[b0, b1]`. -/
def readConfig (s : MAX31875) (recv : List Nat) : Except String MAX31875 :=
  match read s 1 2 recv with
  | some (b0 :: b1 :: _) =>
      .ok { s with cfgB0 := b0, cfgB1 := b1, aliased := false }
  | _ => .error "Failed to read configuration"

/-- Source `writeConfig()`: `self.write(1, self.configBuf)` then
`self.config = self.configBuf`.  Returns the new state together with
the byte block handed to the bus.  The final statement is a reference
assignment: both attribute names now denote one list, recorded by
`aliased := true`. -/
def writeConfig (s : MAX31875) : MAX31875 × List Nat :=
  ({ s with cfgB0 := s.bufB0, cfgB1 := s.bufB1, aliased := true }
  , write s 1 [s.bufB0, s.bufB1])

/-- Source `tempToByte(t)`: `p = 3 if self.format else 4`;
`d = int(abs(t) * 16)` (truncation toward zero, which on the
non-negative `abs(t)*16` is the floor); `u = d>>(8-p) & 0x7F`;
`l = d<<p & 0xFF`; set bit 7 of `u` when `t < 0`. -/
def tempToByte (s : MAX31875) (t : ℚ) : Nat × Nat :=
  let p : Nat := if format s ≠ 0 then 3 else 4
  let d : Nat := (⌊|t| * 16⌋).toNat
  let u : Nat := (d >>> (8 - p)) &&& 0x7F
  let l : Nat := (d <<< p) &&& 0xFF
  if t < 0 then (u ||| 0x80, l) else (u, l)

/-- Source `byteToTemp(u, l)`: `p = 3 if self.format else 4`;
`t = (((u & 0x7F) << (8-p)) + (l >> p)) * 0.0625`; negated when bit 7
of `u` is set. -/
def byteToTemp (s : MAX31875) (u l : Nat) : ℚ :=
  let p : Nat := if format s ≠ 0 then 3 else 4
  let t : ℚ := ((((u &&& 0x7F) <<< (8 - p)) + (l >>> p) : Nat) : ℚ) * 0.0625
  if u &&& 0x80 ≠ 0 then -t else t

/-- The encoder exactly as claim C7 words it, parameterized by the
format bit `f` instead of the object state: `p = 3 if f = 1 else 4`,
`d = trunc(|t|*16)` (truncation toward zero of a non-negative value,
i.e. the floor), upper byte `(d >> (8-p)) & 0x7F` with bit 7 set iff
`t < 0`, lower byte `(d << p) & 0xFF`. -/
def tempToByteSpec (f : Nat) (t : ℚ) : Nat × Nat :=
  let p : Nat := if f = 1 then 3 else 4
  let d : Nat := (⌊|t| * 16⌋).toNat
  let u : Nat := (d >>> (8 - p)) &&& 0x7F
  let l : Nat := (d <<< p) &&& 0xFF
  if t < 0 then (u ||| 0x80, l) else (u, l)

/-! ### Bit-arithmetic helper lemmas -/

/-- Masking with `0x7F = 2^7 - 1` is reduction mod 128. -/
lemma and127_eq_mod (x : Nat) : x &&& 127 = x % 128 := by
  have h := Nat.and_pow_two_sub_one_eq_mod x 7
  norm_num at h
  exact h

/-- Masking with `0xFF = 2^8 - 1` is reduction mod 256. -/
lemma and255_eq_mod (x : Nat) : x &&& 255 = x % 256 := by
  have h := Nat.and_pow_two_sub_one_eq_mod x 8
  norm_num at h
  exact h

/-- The sign bit `0x80` survives or-ing it in. -/
lemma or128_and128 (x : Nat) : (x ||| 128) &&& 128 = 128 := by
  have h7 : (128 : Nat) = 2 ^ 7 := by norm_num
  rw [h7, Nat.and_two_pow, Nat.testBit_or, Nat.testBit_two_pow_self]
  simp

/-- Or-ing in the sign bit `0x80` does not disturb the low 7 bits. -/
lemma or128_and127 (x : Nat) : (x ||| 128) &&& 127 = x &&& 127 := by
  rw [Nat.and_distrib_right, show (128 : Nat) &&& 127 = 0 by decide, Nat.or_zero]

/-- A value already masked to 7 bits has a clear sign bit. -/
lemma and127_and128 (x : Nat) : (x &&& 127) &&& 128 = 0 := by
  rw [Nat.and_assoc, show (127 : Nat) &&& 128 = 0 by decide, Nat.and_zero]

/-- Masking to 7 bits is idempotent. -/
lemma and127_and127 (x : Nat) : (x &&& 127) &&& 127 = x &&& 127 := by
  rw [Nat.and_assoc, show (127 : Nat) &&& 127 = 127 by decide]

/-- Bit 3 of `x ||| 8` reads back as 1 (the PEC-bit store). -/
lemma or8_bit3 (x : Nat) : ((x ||| 8) >>> 3) &&& 1 = 1 := by
  rw [Nat.and_one_is_mod, Nat.shiftRight_eq_div_pow]
  have h : (x ||| 8).testBit 3 = true := by
    rw [Nat.testBit_or, show (8 : Nat) = 2 ^ 3 by norm_num,
      Nat.testBit_two_pow_self, Bool.or_true]
  rw [Nat.testBit_to_div_mod] at h
  simpa using h

/-- The same fact with the mask written as the simp-normal `% 2`. -/
lemma or8_bit3_mod (x : Nat) : ((x ||| 8) >>> 3) % 2 = 1 := by
  have h := or8_bit3 x
  rwa [Nat.and_one_is_mod] at h

/-- Normal-format magnitude round-trip: encoding an 11-bit magnitude
with `p = 4` and decoding it recovers the value. -/
lemma mag_roundtrip_p4 (d : Nat) (hd : d < 2 ^ 11) :
    (((d >>> 4) &&& 127) <<< 4) + (((d <<< 4) &&& 255) >>> 4) = d := by
  rw [Nat.shiftRight_eq_div_pow, Nat.shiftLeft_eq, Nat.shiftLeft_eq,
    Nat.shiftRight_eq_div_pow, and127_eq_mod, and255_eq_mod]
  norm_num at hd ⊢
  omega

/-- Extended-format magnitude round-trip: encoding a 12-bit magnitude
with `p = 3` and decoding it recovers the value. -/
lemma mag_roundtrip_p3 (d : Nat) (hd : d < 2 ^ 12) :
    (((d >>> 5) &&& 127) <<< 5) + (((d <<< 3) &&& 255) >>> 3) = d := by
  rw [Nat.shiftRight_eq_div_pow, Nat.shiftLeft_eq, Nat.shiftLeft_eq,
    Nat.shiftRight_eq_div_pow, and127_eq_mod, and255_eq_mod]
  norm_num at hd ⊢
  omega

/-- Truncation `int(abs(m/16) * 16)` recovers `|m|` for an integer count `m` of
sixteenths. -/
lemma floor_abs_div16 (m : ℤ) : (⌊|((m : ℚ)) / 16| * 16⌋).toNat = m.natAbs := by
  rw [abs_div, abs_of_pos (show (0 : ℚ) < 16 by norm_num),
    div_mul_cancel₀ _ (show (16 : ℚ) ≠ 0 by norm_num), ← Int.cast_abs,
    Int.floor_intCast, Int.abs_eq_natAbs, Int.toNat_ofNat]

/-- The sign test `t < 0` on `t = m/16` is the sign test on `m`. -/
lemma div16_neg_iff (m : ℤ) : ((m : ℚ) / 16 < 0) ↔ m < 0 := by
  rw [div_neg_iff]
  constructor
  · rintro (⟨_, h16⟩ | ⟨h, _⟩)
    · norm_num at h16
    · exact_mod_cast h
  · intro h
    exact Or.inr ⟨by exact_mod_cast h, by norm_num⟩

/-- Evaluation of `tempToByte` on an exact count `m` of sixteenths of a
degree, expressed over `m.natAbs` and the sign of `m`. -/
lemma tempToByte_int (s : MAX31875) (m : ℤ) :
    tempToByte s ((m : ℚ) / 16) =
      if m < 0 then
        (((m.natAbs >>> (8 - (if format s ≠ 0 then 3 else 4))) &&& 127) ||| 128,
          (m.natAbs <<< (if format s ≠ 0 then 3 else 4)) &&& 255)
      else
        ((m.natAbs >>> (8 - (if format s ≠ 0 then 3 else 4))) &&& 127,
          (m.natAbs <<< (if format s ≠ 0 then 3 else 4)) &&& 255) := by
  simp only [tempToByte, floor_abs_div16]
  by_cases hm : m < 0
  · rw [if_pos ((div16_neg_iff m).mpr hm), if_pos hm]
  · rw [if_neg (fun hc => hm ((div16_neg_iff m).mp hc)), if_neg hm]

/-- The natural-number magnitude of `m` casts to `|m|` in `ℚ`. -/
lemma natAbs_cast_rat (m : ℤ) : ((m.natAbs : ℕ) : ℚ) = |(m : ℚ)| := by
  rw [Int.cast_natAbs, Int.cast_abs]

/-! ### Claim theorems -/

/-- Claim C1 (code bug): a field setter invoked in a reachable state is
required to leave the active configuration unchanged (PEC-enable
excepted), but after `writeConfig()` the statement
`self.config = self.configBuf` leaves both attributes referring to ONE
list, so the next in-place setter store mutates the active bytes too.
Concretely: from `init(7)`, `writeConfig()` reaches the aliased state
with both configurations `[0x00, 0x40]`; `shutDown = 1` then flips
byte 0 of the ACTIVE configuration from `0x00` to `0x01`. -/
theorem claim1_code_bug_setter_aliasing :
    (writeConfig (init 7)).1 = ⟨0x4F, 0x00, 0x40, 0x00, 0x40, true⟩
    ∧ setShutDown ⟨0x4F, 0x00, 0x40, 0x00, 0x40, true⟩ 1 =
        .ok ⟨0x4F, 0x01, 0x40, 0x01, 0x40, true⟩
    ∧ shutDown ⟨0x4F, 0x00, 0x40, 0x00, 0x40, true⟩ = 0
    ∧ shutDown ⟨0x4F, 0x01, 0x40, 0x01, 0x40, true⟩ = 1 :=
  ⟨rfl, rfl, rfl, rfl⟩

/-- Claim C2: invoking the PEC setter with value 1 leaves the PEC bit
(bit 3 of byte 1) set in both the pending and the active configuration
within that same call, in every object state, with no commit
involved. -/
theorem claim2_enable_PEC_immediate (s : MAX31875) :
    ∃ s', setPEC s 1 = .ok s' ∧ pendingPEC s' = 1 ∧ PEC s' = 1 := by
  refine ⟨_, rfl, ?_, ?_⟩ <;>
  · simp only [setPEC, storeBuf1, storeCfg1, pendingPEC, PEC]
    rcases hb : s.aliased <;>
      simp [hb, show (1 : Nat) <<< 3 = 8 from rfl, or8_bit3_mod]

/-- Claim C3 (code bug): disabling PEC from a reachable state whose
active PEC bit is 1 is required to clear only the pending bit, the
active bit surviving until the next commit.  But the reachable state
`init(7); PEC=1; writeConfig()` is aliased
(`self.config = self.configBuf`), so `PEC = 0` clears the ACTIVE PEC
bit in the same call, before any commit or refresh. -/
theorem claim3_code_bug_disable_PEC_aliasing :
    setPEC (init 7) 1 = .ok ⟨0x4F, 0x00, 0x48, 0x00, 0x48, false⟩
    ∧ (writeConfig ⟨0x4F, 0x00, 0x48, 0x00, 0x48, false⟩).1 =
        ⟨0x4F, 0x00, 0x48, 0x00, 0x48, true⟩
    ∧ PEC ⟨0x4F, 0x00, 0x48, 0x00, 0x48, true⟩ = 1
    ∧ setPEC ⟨0x4F, 0x00, 0x48, 0x00, 0x48, true⟩ 0 =
        .ok ⟨0x4F, 0x00, 0x40, 0x00, 0x40, true⟩
    ∧ PEC ⟨0x4F, 0x00, 0x40, 0x00, 0x40, true⟩ = 0 :=
  ⟨rfl, rfl, rfl, rfl, rfl⟩

/-- Claim C6: every field setter rejects an argument outside its
declared domain with the source's `ValueError` message; the error is
raised before any store, so the object state is untouched (the
embedding returns `.error` without producing a successor state). -/
theorem claim6_setters_reject_out_of_domain (s : MAX31875) (v : Nat) :
    (¬(v = 0 ∨ v = 1) →
      setFormat s v = .error "Invalid format"
      ∧ setPEC s v = .error "Invalid PEC"
      ∧ setTimeOut s v = .error "Invalid time out"
      ∧ setShutDown s v = .error "Invalid shut down mode setting"
      ∧ setCompInt s v = .error "Invalid shut down mode setting")
    ∧ (¬(v = 0 ∨ v = 1 ∨ v = 2 ∨ v = 3) →
      setResolution s v = .error "Invalid resolution"
      ∧ setConversionRate s v = .error "Invalid conversion rate"
      ∧ setFaultQueue s v = .error "Invalid fault queue") := by
  constructor <;> intro h <;>
    simp [setFormat, setPEC, setTimeOut, setShutDown, setCompInt,
      setResolution, setConversionRate, setFaultQueue, h]

/-- Witness for C6 at the concrete out-of-domain argument 9. -/
theorem claim6_witness :
    setFormat (init 7) 9 = .error "Invalid format"
    ∧ setResolution (init 7) 9 = .error "Invalid resolution" :=
  ⟨((claim6_setters_reject_out_of_domain (init 7) 9).1 (by decide)).1,
   ((claim6_setters_reject_out_of_domain (init 7) 9).2 (by decide)).1⟩

/-- Claim C9 counterexample: the resolution field of the freshly
constructed default configuration is not 3 (the value the driver's own
mapping calls 12-bit). -/
theorem claim9_counterexample : resolution (init 0) ≠ 3 := by decide

/-- Claim C9 (amended): at construction both configuration copies are
the power-on-reset bytes `0x00`/`0x40`, and the resolution field of
this default decodes to 2, which the driver's mapping documents as
10-bit resolution (not 3 = 12-bit). -/
theorem claim9_default_config (pn : Nat) :
    (init pn).bufB0 = 0x00 ∧ (init pn).bufB1 = 0x40
    ∧ (init pn).cfgB0 = 0x00 ∧ (init pn).cfgB1 = 0x40
    ∧ resolution (init pn) = 2 :=
  ⟨rfl, rfl, rfl, rfl, by
    simp [resolution, init, show (2 : Nat) &&& 3 = 2 by decide]⟩

/-- Claim C10: every configuration getter and both codec directions
compute from the active configuration bytes only: two states agreeing
on `config` give identical results, whatever their pending buffers. -/
theorem claim10_getters_active_only (s s' : MAX31875)
    (h0 : s.cfgB0 = s'.cfgB0) (h1 : s.cfgB1 = s'.cfgB1) :
    format s = format s' ∧ PEC s = PEC s' ∧ resolution s = resolution s'
    ∧ conversionRate s = conversionRate s' ∧ timeOut s = timeOut s'
    ∧ faultQueue s = faultQueue s' ∧ shutDown s = shutDown s'
    ∧ compInt s = compInt s'
    ∧ (∀ u l, byteToTemp s u l = byteToTemp s' u l)
    ∧ (∀ t, tempToByte s t = tempToByte s' t) := by
  simp [format, PEC, resolution, conversionRate, timeOut, faultQueue,
    shutDown, compInt, byteToTemp, tempToByte, h0, h1]

/-- Claim C4: with the active PEC bit set, `write` hands the bus the
data followed by exactly one trailing CRC byte computed over
`[addr<<1, register] + data`; with PEC clear the data goes through
unmodified; at device address 0x48, `write(1, [0x00, 0x40])` under PEC
appends `calcCRC([0x90, 0x01, 0x00, 0x40])`. -/
theorem claim4_write_appends_crc (s : MAX31875) (register : Nat)
    (data : List Nat) :
    (PEC s ≠ 0 →
      write s register data =
        data ++ [calcCRC ((s.addr <<< 1) :: register :: data)])
    ∧ (PEC s = 0 → write s register data = data)
    ∧ (s.addr = 0x48 → PEC s ≠ 0 →
      write s 1 [0x00, 0x40] =
        [0x00, 0x40, calcCRC [0x90, 0x01, 0x00, 0x40]]) := by
  refine ⟨fun h => by simp [write, h], fun h => by simp [write, h],
    fun ha h => ?_⟩
  simp [write, h, ha, show (0x48 : Nat) <<< 1 = 0x90 from rfl]

/-- Witness for C4: the concrete PEC-enabled state at address 0x48;
the appended byte is the concrete CRC 0xfa. -/
theorem claim4_witness :
    write ⟨0x48, 0x00, 0x48, 0x00, 0x48, false⟩ 1 [0x00, 0x40] =
      [0x00, 0x40, 0xfa] := by
  rw [(claim4_write_appends_crc ⟨0x48, 0x00, 0x48, 0x00, 0x48, false⟩ 1
    [0x00, 0x40]).2.2 rfl (by decide)]
  decide

/-- Claim C5: with the active PEC bit set, `read` requests `length+1`
bytes; when the CRC over `[addr<<1, register, (addr<<1)+1]` plus the
first `length` received bytes differs from the trailing byte it returns
no data at all (`None`), and `readConfig` then raises its `IOError`
without producing any successor state (the active configuration is
untouched); on a CRC match `read` returns exactly the first `length`
received bytes. -/
theorem claim5_read_validates_crc (s : MAX31875) (register length : Nat)
    (recv : List Nat) (hp : PEC s ≠ 0) (hl : recv.length = length + 1) :
    readReqLen s length = length + 1
    ∧ (calcCRC ([s.addr <<< 1, register, (s.addr <<< 1) + 1] ++ recv.dropLast)
          ≠ recv.getLastD 0 → read s register length recv = none)
    ∧ (calcCRC ([s.addr <<< 1, register, (s.addr <<< 1) + 1] ++ recv.dropLast)
          = recv.getLastD 0 →
        read s register length recv = some (recv.take length))
    ∧ (∀ recv2 : List Nat,
        calcCRC ([s.addr <<< 1, 1, (s.addr <<< 1) + 1] ++ recv2.dropLast)
            ≠ recv2.getLastD 0 →
        readConfig s recv2 = .error "Failed to read configuration") := by
  refine ⟨by simp [readReqLen, hp], fun h => ?_, fun h => ?_,
    fun recv2 h => ?_⟩
  · simp only [read]
    rw [if_pos hp, if_neg h]
  · simp only [read]
    rw [if_pos hp, if_pos h, List.dropLast_eq_take, hl, Nat.add_sub_cancel]
  · simp only [readConfig, read]
    rw [if_pos hp, if_neg h]

/-- Witness for C5: PEC-enabled state at address 0x48; the received
block `[0x00, 0x40, 0x00]` fails the CRC check (the correct trailer is
0xb6), so `read` yields nothing and `readConfig` errors out. -/
theorem claim5_witness :
    read ⟨0x48, 0x00, 0x48, 0x00, 0x48, false⟩ 1 2 [0x00, 0x40, 0x00] = none
    ∧ readConfig ⟨0x48, 0x00, 0x48, 0x00, 0x48, false⟩ [0x00, 0x40, 0x00] =
        .error "Failed to read configuration" :=
  ⟨(claim5_read_validates_crc ⟨0x48, 0x00, 0x48, 0x00, 0x48, false⟩ 1 2
      [0x00, 0x40, 0x00] (by decide) rfl).2.1 (by decide),
   (claim5_read_validates_crc ⟨0x48, 0x00, 0x48, 0x00, 0x48, false⟩ 1 2
      [0x00, 0x40, 0x00] (by decide) rfl).2.2.2 [0x00, 0x40, 0x00] (by decide)⟩

/-- Claim C7: `tempToByte` computes exactly the claimed formula
(`p = 3` iff the format bit is 1, magnitude truncated toward zero,
7-bit upper mask with the sign in bit 7, low byte shifted and masked);
in particular with format 0, `tempToByte(-25.5) = (0x99, 0x80)` and
`byteToTemp(0x99, 0x80) = -25.5`. -/
theorem claim7_tempToByte_formula (s : MAX31875) (t : ℚ)
    (hf : format s = 0 ∨ format s = 1) :
    tempToByte s t = tempToByteSpec (format s) t
    ∧ (format s = 0 →
        tempToByte s (-25.5) = (0x99, 0x80)
        ∧ byteToTemp s 0x99 0x80 = -25.5) := by
  constructor
  · rcases hf with h | h <;> simp [tempToByte, tempToByteSpec, h]
  · intro h0
    constructor
    · rw [show (-25.5 : ℚ) = ((-408 : ℤ) : ℚ) / 16 by norm_num,
        tempToByte_int, if_pos (show (-408 : ℤ) < 0 by decide)]
      simp only [h0, ne_eq]
      norm_num
      decide
    · simp only [byteToTemp, h0, ne_eq]
      norm_num
      rw [if_neg (show ¬((153 : ℕ) &&& 128 = 0) by decide), ← Nat.cast_add,
        show ((153 &&& 127) <<< 4) + (128 >>> 4) = 408 from by decide]
      norm_num

/-- Witness for C7 at the freshly constructed state (format bit 0). -/
theorem claim7_witness :
    tempToByte (init 7) (-25.5) = (0x99, 0x80)
    ∧ byteToTemp (init 7) 0x99 0x80 = -25.5 :=
  (claim7_tempToByte_formula (init 7) 0 (Or.inl (by decide))).2 (by decide)

/-- Claim C8: encode-then-decode is the identity on every temperature
that is an exact integer count `m` of sixteenths of a degree whose
magnitude fits the representable range of the active format (11
magnitude bits for the normal 12-bit format, 12 for the extended
13-bit format), with the same state used for both calls. -/
theorem claim8_roundtrip (s : MAX31875) (m : ℤ)
    (hm : m.natAbs < 2 ^ (if format s = 0 then 11 else 12)) :
    byteToTemp s (tempToByte s ((m : ℚ) / 16)).1 (tempToByte s ((m : ℚ) / 16)).2
      = (m : ℚ) / 16 := by
  rw [tempToByte_int]
  by_cases hf : format s = 0
  · rw [if_pos hf] at hm
    by_cases hm0 : m < 0
    · rw [if_pos hm0]
      simp only [byteToTemp, hf, ne_eq]
      simp [or128_and128, or128_and127, and127_and127]
      rw [← Nat.cast_add, mag_roundtrip_p4 m.natAbs hm, natAbs_cast_rat,
        abs_of_neg (show (m : ℚ) < 0 by exact_mod_cast hm0),
        show (0.0625 : ℚ) = 1 / 16 by norm_num]
      ring
    · rw [if_neg hm0]
      simp only [byteToTemp, hf, ne_eq]
      simp [and127_and128, and127_and127]
      rw [← Nat.cast_add, mag_roundtrip_p4 m.natAbs hm, natAbs_cast_rat,
        abs_of_nonneg (show (0 : ℚ) ≤ (m : ℚ) by exact_mod_cast not_lt.mp hm0),
        show (0.0625 : ℚ) = 1 / 16 by norm_num]
      ring
  · rw [if_neg hf] at hm
    by_cases hm0 : m < 0
    · rw [if_pos hm0]
      simp only [byteToTemp, hf, ne_eq]
      simp [hf, or128_and128, or128_and127, and127_and127]
      rw [← Nat.cast_add, mag_roundtrip_p3 m.natAbs hm, natAbs_cast_rat,
        abs_of_neg (show (m : ℚ) < 0 by exact_mod_cast hm0),
        show (0.0625 : ℚ) = 1 / 16 by norm_num]
      ring
    · rw [if_neg hm0]
      simp only [byteToTemp, hf, ne_eq]
      simp [hf, and127_and128, and127_and127]
      rw [← Nat.cast_add, mag_roundtrip_p3 m.natAbs hm, natAbs_cast_rat,
        abs_of_nonneg (show (0 : ℚ) ≤ (m : ℚ) by exact_mod_cast not_lt.mp hm0),
        show (0.0625 : ℚ) = 1 / 16 by norm_num]
      ring

/-- Witness for C8: the round trip at the concrete temperature
-25.5 °C (= -408 sixteenths) in the freshly constructed state. -/
theorem claim8_witness :
    byteToTemp (init 7) (tempToByte (init 7) (((-408 : ℤ) : ℚ) / 16)).1
      (tempToByte (init 7) (((-408 : ℤ) : ℚ) / 16)).2 = ((-408 : ℤ) : ℚ) / 16 :=
  claim8_roundtrip (init 7) (-408) (by decide)

/-- Witness for C10 at two concrete states sharing the active bytes but
differing everywhere else. -/
theorem claim10_witness :
    shutDown ⟨1, 2, 3, 4, 5, false⟩ = shutDown ⟨6, 7, 8, 4, 5, true⟩
    ∧ PEC ⟨1, 2, 3, 4, 5, false⟩ = PEC ⟨6, 7, 8, 4, 5, true⟩ :=
  ⟨(claim10_getters_active_only ⟨1, 2, 3, 4, 5, false⟩ ⟨6, 7, 8, 4, 5, true⟩
      rfl rfl).2.2.2.2.2.2.1,
   (claim10_getters_active_only ⟨1, 2, 3, 4, 5, false⟩ ⟨6, 7, 8, 4, 5, true⟩
      rfl rfl).2.1⟩

end MAX31875Driver
